import Mathlib

/-!
Verification of the field/descriptor mechanism of the `structures` repository
(`src/structures/fields.py`) against its specification.

The embedding models Python values as an inductive type `PyVal`; Python floats
are modelled as the exact rational numbers they denote; fallible coercion
functions return `Except PyErr PyVal`.  The source file `fields.py` is embedded
definition by definition (`Field.__init__`, `SimpleField`, the built-in
coercion functions `int`, `float`, `bool`, `bytes`, `String.func`,
`list`, `tuple`, `set`, `frozenset`, `dict`, and the `StandartContainer`
default property).  The accessor `FieldDescriptor` lives in
`src/structures/descriptors.py`, which is not part of the sources; it is
modelled from the specification where needed and marked as such.
-/

namespace Structures

/-- Python exception classes that the embedded code can raise. -/
inductive PyErr where
  | typeError
  | valueError
  | unicodeDecodeError
  | unsetAttributeError
deriving DecidableEq

/-- Python values.  Floats are modelled as the exact rationals they denote;
`bytes` is a list of byte values; `set`/`frozenset` carry their elements as a
duplicate-free list; `dict` carries its key/value pairs in insertion order. -/
inductive PyVal where
  | none
  | int (n : Int)
  | float (q : Rat)
  | bool (b : Bool)
  | str (s : String)
  | bytes (bs : List Nat)
  | list (xs : List PyVal)
  | tuple (xs : List PyVal)
  | set (xs : List PyVal)
  | frozenset (xs : List PyVal)
  | dict (kvs : List (PyVal × PyVal))

mutual

/-- Structural equality of Python values (the model's `==` on `PyVal`). -/
def PyVal.beq : PyVal → PyVal → Bool
  | .none, .none => true
  | .int a, .int b => a == b
  | .float a, .float b => a == b
  | .bool a, .bool b => a == b
  | .str a, .str b => a == b
  | .bytes a, .bytes b => a == b
  | .list xs, .list ys => PyVal.beqList xs ys
  | .tuple xs, .tuple ys => PyVal.beqList xs ys
  | .set xs, .set ys => PyVal.beqList xs ys
  | .frozenset xs, .frozenset ys => PyVal.beqList xs ys
  | .dict xs, .dict ys => PyVal.beqPairs xs ys
  | _, _ => false

def PyVal.beqList : List PyVal → List PyVal → Bool
  | [], [] => true
  | x :: xs, y :: ys => PyVal.beq x y && PyVal.beqList xs ys
  | _, _ => false

def PyVal.beqPairs : List (PyVal × PyVal) → List (PyVal × PyVal) → Bool
  | [], [] => true
  | (k, v) :: xs, (l, w) :: ys => PyVal.beq k l && PyVal.beq v w && PyVal.beqPairs xs ys
  | _, _ => false

end

mutual

/-- Python hashability: `list`, `set` and `dict` objects are unhashable;
`tuple` and `frozenset` are hashable when all their elements are. -/
def PyVal.hashable : PyVal → Bool
  | .list _ => false
  | .set _ => false
  | .dict _ => false
  | .tuple xs => PyVal.hashableList xs
  | .frozenset xs => PyVal.hashableList xs
  | _ => true

def PyVal.hashableList : List PyVal → Bool
  | [] => true
  | x :: xs => PyVal.hashable x && PyVal.hashableList xs

end

/-- Deduplication keeping the first occurrence of each value, as `set`
construction does in Python (elements compared by equality). -/
def pyDedup : List PyVal → List PyVal
  | [] => []
  | x :: xs => x :: pyDedup (xs.filter fun y => !(PyVal.beq y x))
termination_by l => l.length
decreasing_by
  simp only [List.length_cons]
  exact Nat.lt_succ_of_le (List.length_filter_le _ _)

/-- Python iteration: `str` yields its characters as one-character strings,
`bytes` yields byte values as ints, the containers yield their elements
(`dict` yields its keys); other values are not iterable. -/
def pyIter : PyVal → Option (List PyVal)
  | .str s => some (s.data.map fun c => .str (String.singleton c))
  | .bytes bs => some (bs.map fun b => .int b)
  | .list xs => some xs
  | .tuple xs => some xs
  | .set xs => some xs
  | .frozenset xs => some xs
  | .dict kvs => some (kvs.map fun kv => kv.1)
  | _ => Option.none

/-- Accumulate a decimal digit string into a number; fails on non-digits or
on the empty string. -/
def digitsToNat (cs : List Char) : Option Nat :=
  if cs.isEmpty then Option.none
  else cs.foldl (fun acc c =>
    acc.bind fun n => if c.isDigit then some (10 * n + (c.toNat - 48)) else Option.none)
    (some 0)

/-- Model of `int(string)`: optional surrounding spaces, optional sign,
decimal digits. -/
def parseInt (s : String) : Option Int :=
  let cs := (((s.data.dropWhile (· = ' ')).reverse.dropWhile (· = ' ')).reverse)
  match cs with
  | '-' :: rest => (digitsToNat rest).map fun n => -(n : Int)
  | '+' :: rest => (digitsToNat rest).map fun n => (n : Int)
  | rest => (digitsToNat rest).map fun n => (n : Int)

/-- Model of `float(string)` on its common core: optional surrounding spaces,
optional sign, decimal digits with an optional fractional part. -/
def parseRat (s : String) : Option Rat :=
  let cs := (((s.data.dropWhile (· = ' ')).reverse.dropWhile (· = ' ')).reverse)
  let signAndRest : Int × List Char :=
    match cs with
    | '-' :: rest => (-1, rest)
    | '+' :: rest => (1, rest)
    | rest => (1, rest)
  let sgn := signAndRest.1
  let rest := signAndRest.2
  let intPart := rest.takeWhile Char.isDigit
  let tail := rest.drop intPart.length
  match tail with
  | [] =>
    (digitsToNat intPart).map fun n => (sgn * n : Int)
  | '.' :: frac =>
    if frac.all Char.isDigit && !(intPart.isEmpty && frac.isEmpty) then
      (digitsToNat (intPart ++ frac)).map fun n =>
        ((sgn * n : Int) : Rat) / (((10 : Nat) ^ frac.length : Nat) : Rat)
    else Option.none
  | _ => Option.none

/-- Truncation toward zero, the behavior of Python `int(float)`. -/
def ratTrunc (q : Rat) : Int := q.num.tdiv q.den

/-- Render bytes as ASCII characters (used for `int(bytes)`/`float(bytes)`). -/
def bytesAscii (bs : List Nat) : String :=
  String.mk (bs.map Char.ofNat)

/-- Is `b` a UTF-8 continuation byte (0x80..0xBF)? -/
def isCont (b : Nat) : Bool := 128 ≤ b && b ≤ 191

/-- Strict UTF-8 decoding of a byte list, as Python `bytes.decode` performs:
rejects invalid lead bytes, overlong encodings, surrogate code points and
code points beyond U+10FFFF. -/
def utf8DecodeAux : List Nat → Option (List Char)
  | [] => some []
  | b :: rest =>
    if b < 128 then
      (utf8DecodeAux rest).map fun cs => Char.ofNat b :: cs
    else if b ≤ 193 then Option.none
    else if b ≤ 223 then
      match rest with
      | c1 :: rest2 =>
        if isCont c1 then
          (utf8DecodeAux rest2).map fun cs => Char.ofNat ((b - 192) * 64 + (c1 - 128)) :: cs
        else Option.none
      | [] => Option.none
    else if b ≤ 239 then
      match rest with
      | c1 :: c2 :: rest2 =>
        if (if b = 224 then 160 ≤ c1 && c1 ≤ 191
            else if b = 237 then 128 ≤ c1 && c1 ≤ 159
            else isCont c1) && isCont c2 then
          (utf8DecodeAux rest2).map fun cs =>
            Char.ofNat ((b - 224) * 4096 + (c1 - 128) * 64 + (c2 - 128)) :: cs
        else Option.none
      | _ => Option.none
    else if b ≤ 244 then
      match rest with
      | c1 :: c2 :: c3 :: rest2 =>
        if (if b = 240 then 144 ≤ c1 && c1 ≤ 191
            else if b = 244 then 128 ≤ c1 && c1 ≤ 143
            else isCont c1) && isCont c2 && isCont c3 then
          (utf8DecodeAux rest2).map fun cs =>
            Char.ofNat ((b - 240) * 262144 + (c1 - 128) * 4096 + (c2 - 128) * 64 + (c3 - 128)) :: cs
        else Option.none
      | _ => Option.none
    else Option.none

/-- Model of `bytes.decode("UTF-8")`. -/
def utf8Decode (bs : List Nat) : Option String :=
  (utf8DecodeAux bs).map fun cs => String.mk cs

/-- The codecs the embedding models for the `String` field's `enc` option. -/
inductive Encoding where
  | utf8
  | latin1
deriving DecidableEq

/-- Decode bytes with a codec; `latin1` maps every byte to the code point of
the same number. -/
def decodeBytes : Encoding → List Nat → Option String
  | .utf8, bs => utf8Decode bs
  | .latin1, bs => if bs.all (· < 256) then some (String.mk (bs.map Char.ofNat)) else Option.none

/-- Number of times `p` divides `n` (for `p > 1`, `n > 0`). -/
def countFactor (p : Nat) : Nat → Nat
  | n =>
    if h : 1 < p ∧ 0 < n ∧ n % p = 0 then countFactor p (n / p) + 1 else 0
termination_by n => n
decreasing_by
  exact Nat.div_lt_self h.2.1 h.1

/-- Render a signed decimal scaled by `10 ^ m`: digit string of `n` with a
decimal point `m` places from the right. -/
def decimalWithPoint (neg : Bool) (n : Nat) (m : Nat) : String :=
  let s := toString n
  let s := if s.length ≤ m then String.mk (List.replicate (m + 1 - s.length) '0') ++ s else s
  let intPart := s.take (s.length - m)
  let frac := s.drop (s.length - m)
  (if neg then "-" else "") ++ intPart ++ "." ++ frac

/-- Model of `str(float)`: Python prints the shortest decimal that denotes the
float; for the exact rationals this embedding uses for floats, that is the
exact decimal expansion whenever the denominator divides a power of ten
(always the case for real binary floats). -/
def floatRepr (q : Rat) : String :=
  if q.den = 1 then toString q.num ++ ".0"
  else
    let a := countFactor 2 q.den
    let b := countFactor 5 q.den
    if 2 ^ a * 5 ^ b = q.den then
      let m := max a b
      decimalWithPoint (q.num < 0) (q.num.natAbs * 2 ^ (m - a) * 5 ^ (m - b)) m
    else toString q

/-- Two-digit lowercase hex rendering of a byte. -/
def hex2 (b : Nat) : String :=
  let d := fun k => Char.ofNat (if k < 10 then 48 + k else 87 + k)
  String.mk [d (b / 16 % 16), d (b % 16)]

/-- Model of `repr(bytes)` (printable ASCII kept, the rest hex-escaped;
quote/backslash escaping elided). -/
def bytesRepr (bs : List Nat) : String :=
  "b'" ++ String.join (bs.map fun b =>
    if 32 ≤ b && b < 127 then String.singleton (Char.ofNat b)
    else "\\x" ++ hex2 b) ++ "'"

mutual

/-- Model of Python `repr` on the values of the embedding (string escaping
elided).  Containers render their elements recursively with `repr`. -/
def pyRepr : PyVal → String
  | .none => "None"
  | .int n => toString n
  | .float q => floatRepr q
  | .bool b => cond b "True" "False"
  | .str s => "'" ++ s ++ "'"
  | .bytes bs => bytesRepr bs
  | .list xs => "[" ++ pyReprList xs ++ "]"
  | .tuple xs =>
    if xs.length = 1 then "(" ++ pyReprList xs ++ ",)"
    else "(" ++ pyReprList xs ++ ")"
  | .set xs =>
    if xs.isEmpty then "set()"
    else "\x7b" ++ pyReprList xs ++ "\x7d"
  | .frozenset xs =>
    if xs.isEmpty then "frozenset()"
    else "frozenset(\x7b" ++ pyReprList xs ++ "\x7d)"
  | .dict kvs => "\x7b" ++ pyReprPairs kvs ++ "\x7d"
termination_by v => sizeOf v

def pyReprList : List PyVal → String
  | [] => ""
  | [x] => pyRepr x
  | x :: xs => pyRepr x ++ ", " ++ pyReprList xs
termination_by l => sizeOf l

def pyReprPairs : List (PyVal × PyVal) → String
  | [] => ""
  | [(k, v)] => pyRepr k ++ ": " ++ pyRepr v
  | (k, v) :: kvs => pyRepr k ++ ": " ++ pyRepr v ++ ", " ++ pyReprPairs kvs
termination_by l => sizeOf l

end

/-- Model of Python `str(x)`, the default textual representation: identity on
strings, `repr` otherwise. -/
def pyStr : PyVal → String
  | .str s => s
  | v => pyRepr v

/-- `Integer.func` from `fields.py` (`func = int`): identity on ints, bools as
0/1, truncation toward zero on floats, decimal parsing on text and bytes, a
ValueError on unparseable text, a TypeError on unsupported kinds. -/
def Integer.func : PyVal → Except PyErr PyVal
  | .int n => .ok (.int n)
  | .bool b => .ok (.int (cond b 1 0))
  | .float q => .ok (.int (ratTrunc q))
  | .str s =>
    match parseInt s with
    | some n => .ok (.int n)
    | Option.none => .error .valueError
  | .bytes bs =>
    match parseInt (bytesAscii bs) with
    | some n => .ok (.int n)
    | Option.none => .error .valueError
  | _ => .error .typeError

/-- `Float.func` from `fields.py` (`func = float`): numeric conversion, with
decimal parsing of text and bytes. -/
def Float.func : PyVal → Except PyErr PyVal
  | .int n => .ok (.float n)
  | .bool b => .ok (.float (cond b 1 0))
  | .float q => .ok (.float q)
  | .str s =>
    match parseRat s with
    | some q => .ok (.float q)
    | Option.none => .error .valueError
  | .bytes bs =>
    match parseRat (bytesAscii bs) with
    | some q => .ok (.float q)
    | Option.none => .error .valueError
  | _ => .error .typeError

/-- `Boolean.func` from `fields.py` (`func = bool`): Python truthiness. -/
def Boolean.func : PyVal → Except PyErr PyVal
  | .none => .ok (.bool false)
  | .int n => .ok (.bool (n ≠ 0 : Bool))
  | .float q => .ok (.bool (q ≠ 0 : Bool))
  | .bool b => .ok (.bool b)
  | .str s => .ok (.bool (!s.isEmpty))
  | .bytes bs => .ok (.bool (!bs.isEmpty))
  | .list xs => .ok (.bool (!xs.isEmpty))
  | .tuple xs => .ok (.bool (!xs.isEmpty))
  | .set xs => .ok (.bool (!xs.isEmpty))
  | .frozenset xs => .ok (.bool (!xs.isEmpty))
  | .dict kvs => .ok (.bool (!kvs.isEmpty))

/-- One element of a `bytes(iterable)` construction: must be an integer in
0..255 (bools count as integers). -/
def byteOf : PyVal → Except PyErr Nat
  | .int n => if 0 ≤ n && n < 256 then .ok n.toNat else .error .valueError
  | .bool b => .ok (cond b 1 0)
  | _ => .error .typeError

/-- `bytes` from an iterable's elements, left to right, first error wins. -/
def bytesOfElems : List PyVal → Except PyErr (List Nat)
  | [] => .ok []
  | x :: xs =>
    match byteOf x with
    | .ok b =>
      match bytesOfElems xs with
      | .ok bs => .ok (b :: bs)
      | .error e => .error e
    | .error e => .error e

/-- `Bytes.func` from `fields.py` (`func = bytes`): bytes pass through, text
raises a TypeError (no implicit encoding), a nonnegative int yields that many
zero bytes, any other iterable must consist of integers in 0..255. -/
def Bytes.func : PyVal → Except PyErr PyVal
  | .bytes bs => .ok (.bytes bs)
  | .str _ => .error .typeError
  | .int n => if 0 ≤ n then .ok (.bytes (List.replicate n.toNat 0)) else .error .valueError
  | .bool b => .ok (.bytes (List.replicate (cond b 1 0) 0))
  | v =>
    match pyIter v with
    | some xs =>
      match bytesOfElems xs with
      | .ok bs => .ok (.bytes bs)
      | .error e => .error e
    | Option.none => .error .typeError

/-- `str(obj, enc)`: decodes a byte-like object with the codec `enc`; raises
a TypeError when `obj` is not byte-like, and a UnicodeDecodeError when the
bytes do not decode. -/
def strDecode (obj : PyVal) (enc : Encoding) : Except PyErr String :=
  match obj with
  | .bytes bs =>
    match decodeBytes enc bs with
    | some s => .ok s
    | Option.none => .error .unicodeDecodeError
  | _ => .error .typeError

/-- `String.func` from `fields.py`, lines 254-266: a string passes through
unchanged; otherwise `str(obj, enc)` is attempted and only a TypeError is
caught and turned into the `str(obj)` fallback — any other error (notably a
UnicodeDecodeError from byte-like input that does not decode) propagates. -/
def String.func (obj : PyVal) (enc : Encoding) : Except PyErr PyVal :=
  match obj with
  | .str s => .ok (.str s)
  | _ =>
    match strDecode obj enc with
    | .ok s => .ok (.str s)
    | .error .typeError => .ok (.str (pyStr obj))
    | .error e => .error e

/-- `List.func` from `fields.py` (`func = list`): a fresh list from any
iterable. -/
def List.func (v : PyVal) : Except PyErr PyVal :=
  match pyIter v with
  | some xs => .ok (.list xs)
  | Option.none => .error .typeError

/-- `Tuple.func` from `fields.py` (`func = tuple`): a tuple from any
iterable. -/
def Tuple.func (v : PyVal) : Except PyErr PyVal :=
  match pyIter v with
  | some xs => .ok (.tuple xs)
  | Option.none => .error .typeError

/-- Check that every element of a prospective set is hashable, left to
right; a TypeError (unhashable type) otherwise. -/
def hashableElems : List PyVal → Except PyErr (List PyVal)
  | [] => .ok []
  | x :: xs =>
    if x.hashable then
      match hashableElems xs with
      | .ok ys => .ok (x :: ys)
      | .error e => .error e
    else .error .typeError

/-- `Set.func` from `fields.py` (`func = set`): a set from any iterable of
hashable elements, duplicates removed. -/
def Set.func (v : PyVal) : Except PyErr PyVal :=
  match pyIter v with
  | some xs =>
    match hashableElems xs with
    | .ok ys => .ok (.set (pyDedup ys))
    | .error e => .error e
  | Option.none => .error .typeError

/-- `FrozenSet.func` from `fields.py` (`func = frozenset`). -/
def FrozenSet.func (v : PyVal) : Except PyErr PyVal :=
  match pyIter v with
  | some xs =>
    match hashableElems xs with
    | .ok ys => .ok (.frozenset (pyDedup ys))
    | .error e => .error e
  | Option.none => .error .typeError

/-- One element of a `dict(iterable)` construction: any iterable of exactly
two items, whose first item (the key) must be hashable. -/
def pairOf (e : PyVal) : Except PyErr (PyVal × PyVal) :=
  match pyIter e with
  | some [k, v] => if k.hashable then .ok (k, v) else .error .typeError
  | some _ => .error .valueError
  | Option.none => .error .typeError

/-- The key/value pairs of a `dict(iterable)` construction, left to right. -/
def pairsOfElems : List PyVal → Except PyErr (List (PyVal × PyVal))
  | [] => .ok []
  | x :: xs =>
    match pairOf x with
    | .ok kv =>
      match pairsOfElems xs with
      | .ok kvs => .ok (kv :: kvs)
      | .error e => .error e
    | .error e => .error e

/-- Insert one pair into an association list the way `dict` insertion works:
an existing key keeps its position and takes the new value, a new key is
appended. -/
def insertPair (acc : List (PyVal × PyVal)) (kv : PyVal × PyVal) : List (PyVal × PyVal) :=
  if acc.any fun p => PyVal.beq p.1 kv.1 then
    acc.map fun p => if PyVal.beq p.1 kv.1 then (p.1, kv.2) else p
  else acc ++ [kv]

/-- `Dict.func` from `fields.py` (`func = dict`): copying a dict, or building
one from any iterable of key/value pairs (later values win). -/
def Dict.func (v : PyVal) : Except PyErr PyVal :=
  match v with
  | .dict kvs => .ok (.dict kvs)
  | _ =>
    match pyIter v with
    | some xs =>
      match pairsOfElems xs with
      | .ok kvs => .ok (.dict (kvs.foldl insertPair []))
      | .error e => .error e
    | Option.none => .error .typeError

/-- The state of a `Field` object after construction: its coercion function
and its `default` slot (`Option.none` models the `NoDefault` sentinel from
`structures.markers`). -/
structure Field where
  func : PyVal → Except PyErr PyVal
  default : Option PyVal

/-- `Field.__init__` from `fields.py`, lines 73-77: store `func`; when a
default is supplied, immediately coerce it and store the coerced value as
`default`; a coercion error propagates out of construction. -/
def Field.make (func : PyVal → Except PyErr PyVal) (default : Option PyVal) :
    Except PyErr Field :=
  match default with
  | Option.none => .ok { func := func, default := Option.none }
  | some d =>
    match func d with
    | .ok c => .ok { func := func, default := some c }
    | .error e => .error e

/-- `SimpleField.__init__` from `fields.py`, lines 100-101: pass the class's
fixed coercion function to `Field.__init__`. -/
def SimpleField.make (func : PyVal → Except PyErr PyVal) (default : Option PyVal) :
    Except PyErr Field :=
  Field.make func default

/-- `Integer(default)`: a `SimpleField` with `func = int`. -/
def Integer.make (default : Option PyVal) : Except PyErr Field :=
  SimpleField.make Integer.func default

/-- `Bytes(default)`: a `SimpleField` with `func = bytes`. -/
def Bytes.make (default : Option PyVal) : Except PyErr Field :=
  SimpleField.make Bytes.func default

/-- `String(default, enc)`: a `Field` whose coercion is `String.func` closed
over the configured codec (`fields.py`, lines 250-252). -/
def String.make (default : Option PyVal) (enc : Encoding) : Except PyErr Field :=
  Field.make (fun o => String.func o enc) default

/-- The state of a `StandartContainer` field after construction: the coercion
function and the raw slot `_default` behind the `default` property
(`Option.none` models the `NoDefault` sentinel). -/
structure StandartContainer where
  func : PyVal → Except PyErr PyVal
  rawDefault : Option PyVal

/-- `StandartContainer.__init__` from `fields.py`, lines 273-274, through
`Field.__init__`: `self.default = self.func(default)` routes through the
`default` property setter (lines 283-285), so the value stored in `_default`
is the result of coercing the supplied default once at construction. -/
def StandartContainer.make (func : PyVal → Except PyErr PyVal) (default : Option PyVal) :
    Except PyErr StandartContainer :=
  match default with
  | Option.none => .ok { func := func, rawDefault := Option.none }
  | some d =>
    match func d with
    | .ok c => .ok { func := func, rawDefault := some c }
    | .error e => .error e

/-- The `default` property getter from `fields.py`, lines 276-281: when
`_default` is not the sentinel, return `func(_default)` — a freshly coerced
container on every read; otherwise return the sentinel itself. -/
def StandartContainer.defaultGet (f : StandartContainer) : Except PyErr (Option PyVal) :=
  match f.rawDefault with
  | some r =>
    match f.func r with
    | .ok v => .ok (some v)
    | .error e => .error e
  | Option.none => .ok Option.none

/-- Modelled from the spec: `FieldDescriptor.__get__` of
`src/structures/descriptors.py`, which is not under `src/`.  Spec section 4.2:
a stored instance value is returned directly with no re-coercion; otherwise a
scalar field returns its pre-coerced `default`, and the sentinel means an
UnsetAttributeError. -/
def FieldDescriptor.getScalar (f : Field) (storage : Option PyVal) : Except PyErr PyVal :=
  match storage with
  | some v => .ok v
  | Option.none =>
    match f.default with
    | some d => .ok d
    | Option.none => .error .unsetAttributeError

/-- Modelled from the spec: `FieldDescriptor.__get__` for a container field.
Spec section 4.2: a stored instance value is returned directly; otherwise the
field's `default` property is read (which re-applies the coercion to the raw
stored default, `fields.py` lines 276-281), and the sentinel means an
UnsetAttributeError. -/
def FieldDescriptor.getContainer (f : StandartContainer) (storage : Option PyVal) :
    Except PyErr PyVal :=
  match storage with
  | some v => .ok v
  | Option.none =>
    match f.defaultGet with
    | .ok (some v) => .ok v
    | .ok Option.none => .error .unsetAttributeError
    | .error e => .error e

/-- Modelled from the spec: `FieldDescriptor.__set__` of
`src/structures/descriptors.py`, which is not under `src/`.  Spec section 4.2:
coerce the value and store the coerced result; a coercion error leaves the
prior stored value unchanged.  Returns the new storage together with the
raised error, if any. -/
def FieldDescriptor.setValue (func : PyVal → Except PyErr PyVal) (storage : Option PyVal)
    (v : PyVal) : Option PyVal × Option PyErr :=
  match func v with
  | .ok c => (some c, Option.none)
  | .error e => (storage, some e)

/-- A container object on the heap, for making object identity explicit
where a claim speaks about aliasing. -/
inductive Obj where
  | listO (xs : List PyVal)
  | tupleO (xs : List PyVal)
  | setO (xs : List PyVal)
  | frozensetO (xs : List PyVal)
  | dictO (kvs : List (PyVal × PyVal))

/-- A heap of container objects; an address is an index into `cells`. -/
structure Heap where
  cells : List Obj

/-- The object stored at address `a`, if allocated. -/
def Heap.get (h : Heap) (a : Nat) : Option Obj := h.cells[a]?

/-- Allocate a new object at the next free address. -/
def Heap.push (h : Heap) (o : Obj) : Heap := ⟨h.cells ++ [o]⟩

/-- Mutate the object at address `a` in place. -/
def Heap.mutate (h : Heap) (a : Nat) (o : Obj) : Heap := ⟨h.cells.set a o⟩

/-- The five container field kinds of `fields.py`: `List` (sequence), `Tuple`
(ordered sequence), `Set`, `FrozenSet` (unique sets) and `Dict` (mapping). -/
inductive ContainerKind where
  | list
  | tuple
  | set
  | frozenset
  | dict
deriving DecidableEq

/-- Whether the kind's container objects are mutable in Python. -/
def kindMutable : ContainerKind → Bool
  | .list => true
  | .set => true
  | .dict => true
  | .tuple => false
  | .frozenset => false

/-- Whether a heap object is a container of the given kind. -/
def kindMatches : ContainerKind → Obj → Bool
  | .list, .listO _ => true
  | .tuple, .tupleO _ => true
  | .set, .setO _ => true
  | .frozenset, .frozensetO _ => true
  | .dict, .dictO _ => true
  | _, _ => false

/-- The contents of the kind's coercion applied to a container object that is
already of the field's own kind (`list(l)`, `set(s)`, ... as copies). -/
def coerceObj : ContainerKind → Obj → Obj
  | .list, .listO xs => .listO xs
  | .set, .setO xs => .setO (pyDedup xs)
  | .dict, .dictO kvs => .dictO kvs
  | _, o => o

/-- Modelled from the spec: one read of an unset container attribute through
`FieldDescriptor.__get__` (`src/structures/descriptors.py` is not under
`src/`; spec section 4.2), with object identity made explicit.  The
descriptor reads the field's `default` property, which evaluates
`func(_default)` (`fields.py` lines 276-281); `d0` is the address of the
`_default` object, which `StandartContainer.make` guarantees to be of the
field's own kind.  Object identity follows CPython's builtin constructors:
`list(x)`, `set(x)` and `dict(x)` always allocate a fresh object, while
`tuple(t)` and `frozenset(s)` return their argument itself when it is already
exactly a tuple (resp. frozenset). -/
def unsetRead (k : ContainerKind) (h : Heap) (d0 : Nat) : Option (Heap × Nat) :=
  match h.get d0 with
  | some o =>
    if kindMatches k o then
      if kindMutable k then some (h.push (coerceObj k o), h.cells.length)
      else some (h, d0)
    else Option.none
  | Option.none => Option.none

/-- The built-in coercion functions of `fields.py`, as one enumeration (the
text kind carries its configured codec). -/
inductive BuiltinCoercion where
  | integer
  | floating
  | boolean
  | byteSeq
  | text (enc : Encoding)
  | sequence
  | orderedSeq
  | uniqueSet
  | frozenUniqueSet
  | mapping

/-- Apply a built-in coercion to a value. -/
def BuiltinCoercion.apply : BuiltinCoercion → PyVal → Except PyErr PyVal
  | .integer, v => Integer.func v
  | .floating, v => Float.func v
  | .boolean, v => Boolean.func v
  | .byteSeq, v => Bytes.func v
  | .text enc, v => String.func v enc
  | .sequence, v => List.func v
  | .orderedSeq, v => Tuple.func v
  | .uniqueSet, v => Set.func v
  | .frozenUniqueSet, v => FrozenSet.func v
  | .mapping, v => Dict.func v

/-- Is the value textual or byte-like (the two non-fallback inputs of
`String.func`)? -/
def isStrOrBytes : PyVal → Bool
  | .str _ => true
  | .bytes _ => true
  | _ => false

/-- `ratTrunc` is the floor on nonnegative rationals. -/
theorem ratTrunc_eq_floor {q : Rat} (h : 0 ≤ q) : ratTrunc q = ⌊q⌋ := by
  rw [ratTrunc, Rat.floor_def]
  exact Int.tdiv_eq_ediv (Rat.num_nonneg.mpr h) (Int.ofNat_nonneg _)

/-- `ratTrunc` is the ceiling on nonpositive rationals: together with
`ratTrunc_eq_floor` this is exactly truncation toward zero. -/
theorem ratTrunc_eq_ceil {q : Rat} (h : q ≤ 0) : ratTrunc q = ⌈q⌉ := by
  have h1 : ratTrunc q = -ratTrunc (-q) := by
    rw [ratTrunc, ratTrunc, Rat.neg_num, Rat.neg_den, Int.neg_tdiv, neg_neg]
  have h2 : ratTrunc (-q) = ⌊-q⌋ := ratTrunc_eq_floor (by linarith)
  rw [h1, h2, ← Int.ceil_neg, neg_neg]

/-- Every element of `pyDedup l` is an element of `l`. -/
theorem mem_pyDedup : ∀ (l : List PyVal) (y : PyVal), y ∈ pyDedup l → y ∈ l := by
  intro l
  induction l using pyDedup.induct with
  | case1 =>
    intro y hy
    simp [pyDedup] at hy
  | case2 x xs ih =>
    intro y hy
    rw [pyDedup] at hy
    rcases List.mem_cons.mp hy with h | h
    · exact h ▸ List.mem_cons_self _ _
    · exact List.mem_cons_of_mem _ ((List.mem_filter.mp (ih _ h)).1)

/-- Deduplication is idempotent. -/
theorem pyDedup_idem : ∀ l : List PyVal, pyDedup (pyDedup l) = pyDedup l := by
  intro l
  induction l using pyDedup.induct with
  | case1 => simp [pyDedup]
  | case2 x xs ih =>
    rw [pyDedup]
    conv_lhs => rw [pyDedup]
    congr 1
    have hfilter :
        (pyDedup (xs.filter fun y => !(PyVal.beq y x))).filter (fun y => !(PyVal.beq y x))
          = pyDedup (xs.filter fun y => !(PyVal.beq y x)) := by
      apply List.filter_eq_self.mpr
      intro a ha
      exact (List.mem_filter.mp (mem_pyDedup _ _ ha)).2
    rw [hfilter, ih]

/-- A successful hashability check returns the input list unchanged. -/
theorem hashableElems_eq : ∀ {l ys : List PyVal}, hashableElems l = .ok ys → ys = l := by
  intro l
  induction l with
  | nil => intro ys h; rw [hashableElems] at h; cases h; rfl
  | cons x xs ih =>
    intro ys h
    rw [hashableElems] at h
    by_cases hx : x.hashable = true
    · rw [if_pos hx] at h
      cases hxs : hashableElems xs with
      | ok zs => rw [hxs] at h; cases h; rw [ih hxs]
      | error e => rw [hxs] at h; cases h
    · rw [if_neg hx] at h; cases h

/-- A successful hashability check means every element is hashable. -/
theorem hashableElems_all : ∀ {l ys : List PyVal}, hashableElems l = .ok ys →
    ∀ y ∈ l, y.hashable = true := by
  intro l
  induction l with
  | nil => intro ys _ y hy; cases hy
  | cons x xs ih =>
    intro ys h y hy
    rw [hashableElems] at h
    by_cases hx : x.hashable = true
    · rw [if_pos hx] at h
      cases hxs : hashableElems xs with
      | ok zs =>
        rcases List.mem_cons.mp hy with rfl | hmem
        · exact hx
        · exact ih hxs y hmem
      | error e => rw [hxs] at h; cases h
    · rw [if_neg hx] at h; cases h

/-- A list of hashable elements passes the hashability check. -/
theorem hashableElems_of_all : ∀ {l : List PyVal}, (∀ y ∈ l, y.hashable = true) →
    hashableElems l = .ok l := by
  intro l
  induction l with
  | nil => intro _; rfl
  | cons x xs ih =>
    intro h
    rw [hashableElems, if_pos (h x (List.mem_cons_self _ _)),
      ih fun y hy => h y (List.mem_cons_of_mem _ hy)]

/-- Every successful `int` coercion produces an int. -/
theorem integer_func_shape {x y : PyVal} (h : Integer.func x = .ok y) : ∃ n : Int, y = .int n := by
  unfold Integer.func at h
  split at h <;> try (first | (cases h; exact ⟨_, rfl⟩) | cases h)
  all_goals split at h <;> first | (cases h; exact ⟨_, rfl⟩) | cases h

/-- Every successful `float` coercion produces a float. -/
theorem float_func_shape {x y : PyVal} (h : Float.func x = .ok y) : ∃ q : Rat, y = .float q := by
  unfold Float.func at h
  split at h <;> try (first | (cases h; exact ⟨_, rfl⟩) | cases h)
  all_goals split at h <;> first | (cases h; exact ⟨_, rfl⟩) | cases h

/-- Every successful `bool` coercion produces a bool. -/
theorem boolean_func_shape {x y : PyVal} (h : Boolean.func x = .ok y) : ∃ b : Bool, y = .bool b := by
  unfold Boolean.func at h
  split at h <;> (cases h; exact ⟨_, rfl⟩)

/-- Every successful `bytes` coercion produces a byte string. -/
theorem bytes_func_shape {x y : PyVal} (h : Bytes.func x = .ok y) : ∃ bs : List Nat, y = .bytes bs := by
  unfold Bytes.func at h
  split at h <;> try (first | (cases h; exact ⟨_, rfl⟩) | cases h)
  all_goals split at h <;> try (first | (cases h; exact ⟨_, rfl⟩) | cases h)
  all_goals split at h <;> first | (cases h; exact ⟨_, rfl⟩) | cases h

/-- Every successful `String.func` coercion produces a text string. -/
theorem string_func_shape {x y : PyVal} {enc : Encoding} (h : String.func x enc = .ok y) :
    ∃ s : String, y = .str s := by
  unfold String.func at h
  split at h <;> try (first | (cases h; exact ⟨_, rfl⟩) | cases h)
  all_goals split at h <;> first | (cases h; exact ⟨_, rfl⟩) | cases h

/-- Every successful `list` coercion produces a list. -/
theorem list_func_shape {x y : PyVal} (h : List.func x = .ok y) : ∃ xs : List PyVal, y = .list xs := by
  unfold List.func at h
  split at h <;> first | (cases h; exact ⟨_, rfl⟩) | cases h

/-- Every successful `tuple` coercion produces a tuple. -/
theorem tuple_func_shape {x y : PyVal} (h : Tuple.func x = .ok y) : ∃ xs : List PyVal, y = .tuple xs := by
  unfold Tuple.func at h
  split at h <;> first | (cases h; exact ⟨_, rfl⟩) | cases h

/-- Every successful `set` coercion produces a deduplicated set of hashable
elements. -/
theorem set_func_shape {x y : PyVal} (h : Set.func x = .ok y) :
    ∃ zs : List PyVal, y = .set (pyDedup zs) ∧ ∀ e ∈ zs, e.hashable = true := by
  unfold Set.func at h
  split at h
  · rename_i xs hxs
    split at h
    · rename_i ys hys
      cases h
      exact ⟨ys, by rw [hashableElems_eq hys]; exact ⟨rfl, fun e he => hashableElems_all hys e ((hashableElems_eq hys) ▸ he)⟩⟩
    · cases h
  · cases h

/-- Every successful `frozenset` coercion produces a deduplicated frozenset
of hashable elements. -/
theorem Frozenset_func_shape {x y : PyVal} (h : FrozenSet.func x = .ok y) :
    ∃ zs : List PyVal, y = .frozenset (pyDedup zs) ∧ ∀ e ∈ zs, e.hashable = true := by
  unfold FrozenSet.func at h
  split at h
  · rename_i xs hxs
    split at h
    · rename_i ys hys
      cases h
      exact ⟨ys, by rw [hashableElems_eq hys]; exact ⟨rfl, fun e he => hashableElems_all hys e ((hashableElems_eq hys) ▸ he)⟩⟩
    · cases h
  · cases h

/-- Every successful `dict` coercion produces a dict. -/
theorem dict_func_shape {x y : PyVal} (h : Dict.func x = .ok y) :
    ∃ kvs : List (PyVal × PyVal), y = .dict kvs := by
  unfold Dict.func at h
  split at h <;> try (first | (cases h; exact ⟨_, rfl⟩) | cases h)
  all_goals split at h <;> try cases h
  all_goals split at h <;> first | (cases h; exact ⟨_, rfl⟩) | cases h

/-- C10: a field constructed without a default never invokes its coercion
function during construction — construction succeeds for every coercion
function, including one that always raises (by
`invalid_default_fails_at_construction`, an invocation would have propagated
the error) — and the resolved default remains the `NoDefault` sentinel
(modelled as `Option.none`): in particular the container `default` property
returns the sentinel itself, never `coerce(NoDefault)`, and the downstream
unset read path distinguishes it from every value by raising an
UnsetAttributeError. -/
theorem no_default_keeps_sentinel :
    ∀ func : PyVal → Except PyErr PyVal,
      Field.make func Option.none = .ok { func := func, default := Option.none }
      ∧ StandartContainer.make func Option.none = .ok { func := func, rawDefault := Option.none }
      ∧ StandartContainer.defaultGet { func := func, rawDefault := Option.none } = .ok Option.none
      ∧ FieldDescriptor.getScalar { func := func, default := Option.none } Option.none
          = .error .unsetAttributeError
      ∧ FieldDescriptor.getContainer { func := func, rawDefault := Option.none } Option.none
          = .error .unsetAttributeError := by
  intro func
  exact ⟨rfl, rfl, rfl, rfl, rfl⟩

/-- C3: a scalar field constructed with a non-sentinel default `d` stores the
value `coerce(d)` computed at construction, and an unset read returns exactly
that stored value for every possible coercion function in the field slot —
so the read cannot be re-running the coercion. -/
theorem scalar_default_precoerced :
    ∀ (func : PyVal → Except PyErr PyVal) (d c : PyVal), func d = .ok c →
      Field.make func (some d) = .ok { func := func, default := some c }
      ∧ ∀ g : PyVal → Except PyErr PyVal,
          FieldDescriptor.getScalar { func := g, default := some c } Option.none = .ok c := by
  intro func d c h
  constructor
  · rw [Field.make, h]
  · intro g
    rfl

/-- Witness for `scalar_default_precoerced` at the spec's Scenario A field
`Integer(10)`, an always-raising replacement coercion on the read side. -/
theorem scalar_default_precoerced_witness :
    Field.make Integer.func (some (.int 10))
        = .ok { func := Integer.func, default := some (.int 10) }
    ∧ FieldDescriptor.getScalar
        { func := fun _ => .error .typeError, default := some (.int 10) } Option.none
        = .ok (.int 10) :=
  ⟨(scalar_default_precoerced Integer.func (.int 10) (.int 10) rfl).1,
   (scalar_default_precoerced Integer.func (.int 10) (.int 10) rfl).2 _⟩

/-- C4: when the coercion function raises on the supplied default, field
construction itself — scalar or container — propagates that error, so no
field value exists whose first read could defer it. -/
theorem invalid_default_fails_at_construction :
    ∀ (func : PyVal → Except PyErr PyVal) (d : PyVal) (e : PyErr), func d = .error e →
      Field.make func (some d) = .error e
      ∧ StandartContainer.make func (some d) = .error e := by
  intro func d e h
  exact ⟨by rw [Field.make, h], by rw [StandartContainer.make, h]⟩

/-- Witness for `invalid_default_fails_at_construction`: a byte-sequence
field declared with a text default fails at declaration time. -/
theorem invalid_default_fails_at_construction_witness :
    Field.make Bytes.func (some (.str "unicode string")) = .error .typeError
    ∧ StandartContainer.make Bytes.func (some (.str "unicode string")) = .error .typeError :=
  ⟨(invalid_default_fails_at_construction Bytes.func (.str "unicode string") .typeError rfl).1,
   (invalid_default_fails_at_construction Bytes.func (.str "unicode string") .typeError rfl).2⟩

/-- C6: the byte-sequence coercion returns byte input as a byte sequence
unchanged, and raises a TypeError on every plain text string — there is no
implicit encoding. -/
theorem bytes_accepts_bytes_rejects_text :
    (∀ bs : List Nat, Bytes.func (.bytes bs) = .ok (.bytes bs))
    ∧ (∀ s : String, Bytes.func (.str s) = .error .typeError) :=
  ⟨fun _ => rfl, fun _ => rfl⟩

/-- C2 counterexample: a sequence field declared with the tuple `(1,)` as its
default does not store that value raw in its `_default` slot — it stores the
already-coerced list `[1]`, because `Field.__init__` assigns
`self.func(default)` through the `default` property setter.  The claim's
"stores that default value raw (un-coerced, exactly as supplied)" is false. -/
theorem container_raw_default_coerced_cex :
    (StandartContainer.make List.func (some (.tuple [.int 1]))).map StandartContainer.rawDefault
      = .ok (some (.list [.int 1]))
    ∧ (PyVal.list [.int 1] ≠ PyVal.tuple [.int 1]) := by
  refine ⟨rfl, ?_⟩
  intro h
  exact PyVal.noConfusion h

/-- C2 as amended: a container field stores the coerced default
`coerce(default)` — computed once at construction — in its `_default` slot,
and every read of the attribute while no instance value has been set applies
the coercion function to that stored (coerced) value to produce the returned
container. -/
theorem container_stores_coerced_rereads_coerce :
    ∀ (func : PyVal → Except PyErr PyVal) (d c : PyVal), func d = .ok c →
      StandartContainer.make func (some d) = .ok { func := func, rawDefault := some c }
      ∧ FieldDescriptor.getContainer { func := func, rawDefault := some c } Option.none
          = func c := by
  intro func d c h
  constructor
  · rw [StandartContainer.make, h]
  · cases hfc : func c with
    | ok v => simp [FieldDescriptor.getContainer, StandartContainer.defaultGet, hfc]
    | error e => simp [FieldDescriptor.getContainer, StandartContainer.defaultGet, hfc]

/-- Witness for `container_stores_coerced_rereads_coerce` at a `List` field
with default `(1,)`: the slot holds `[1]` and an unset read evaluates
`list([1])`. -/
theorem container_stores_coerced_rereads_coerce_witness :
    StandartContainer.make List.func (some (.tuple [.int 1]))
        = .ok { func := List.func, rawDefault := some (.list [.int 1]) }
    ∧ FieldDescriptor.getContainer
        { func := List.func, rawDefault := some (.list [.int 1]) } Option.none
        = List.func (.list [.int 1]) :=
  ⟨(container_stores_coerced_rereads_coerce List.func (.tuple [.int 1]) (.list [.int 1]) rfl).1,
   (container_stores_coerced_rereads_coerce List.func (.tuple [.int 1]) (.list [.int 1]) rfl).2⟩

/-- C5 counterexample: the byte string `b"\xff"` is not valid UTF-8, so its
decoding fails — but `String.func` does not fall back to `str(x)`: the
UnicodeDecodeError is not a TypeError, so the `except TypeError` clause does
not catch it and it propagates.  The claim's "whenever that decoding fails,
it returns the input's default textual representation" is false. -/
theorem string_undecodable_bytes_error_cex :
    decodeBytes Encoding.utf8 [255] = Option.none
    ∧ String.func (.bytes [255]) Encoding.utf8 = .error .unicodeDecodeError
    ∧ (Except.error PyErr.unicodeDecodeError
        ≠ (Except.ok (.str (pyStr (.bytes [255]))) : Except PyErr PyVal)) := by
  refine ⟨rfl, rfl, ?_⟩
  intro h
  exact Except.noConfusion h

/-- C5 as amended: a textual input passes through unchanged; any other input
is decoded as bytes with the field's configured codec (UTF-8 by default);
when the input is not byte-like the attempt raises a TypeError, which is
caught and replaced by the fallback `str(x)`; but a byte-like input whose
bytes do not decode raises a UnicodeDecodeError, which propagates instead of
falling back. -/
theorem string_decode_fallback_policy :
    (∀ (s : String) (enc : Encoding), String.func (.str s) enc = .ok (.str s))
    ∧ (∀ (bs : List Nat) (enc : Encoding) (s : String), decodeBytes enc bs = some s →
        String.func (.bytes bs) enc = .ok (.str s))
    ∧ (∀ (bs : List Nat) (enc : Encoding), decodeBytes enc bs = Option.none →
        String.func (.bytes bs) enc = .error .unicodeDecodeError)
    ∧ (∀ (v : PyVal) (enc : Encoding), isStrOrBytes v = false →
        String.func v enc = .ok (.str (pyStr v))) := by
  refine ⟨fun s enc => rfl, ?_, ?_, ?_⟩
  · intro bs enc s h
    simp [String.func, strDecode, h]
  · intro bs enc h
    simp [String.func, strDecode, h]
  · intro v enc h
    cases v with
    | str s => exact absurd h (by simp [isStrOrBytes])
    | bytes bs => exact absurd h (by simp [isStrOrBytes])
    | none => simp [String.func, strDecode, pyStr]
    | int n => simp [String.func, strDecode, pyStr]
    | float q => simp [String.func, strDecode, pyStr]
    | bool b => simp [String.func, strDecode, pyStr]
    | list xs => simp [String.func, strDecode, pyStr]
    | tuple xs => simp [String.func, strDecode, pyStr]
    | set xs => simp [String.func, strDecode, pyStr]
    | frozenset xs => simp [String.func, strDecode, pyStr]
    | dict kvs => simp [String.func, strDecode, pyStr]

/-- Witness for `string_decode_fallback_policy`: pass-through on `"test"`,
decoding of `b"hi"`, the propagating error on `b"\xff"`, and the `str`
fallback on the number `777` (spec Scenario D). -/
theorem string_decode_fallback_policy_witness :
    String.func (.str "test") Encoding.utf8 = .ok (.str "test")
    ∧ String.func (.bytes [104, 105]) Encoding.utf8 = .ok (.str "hi")
    ∧ String.func (.bytes [255]) Encoding.utf8 = .error .unicodeDecodeError
    ∧ String.func (.int 777) Encoding.utf8 = .ok (.str "777") := by
  refine ⟨string_decode_fallback_policy.1 "test" Encoding.utf8,
    string_decode_fallback_policy.2.1 [104, 105] Encoding.utf8 "hi" rfl,
    string_decode_fallback_policy.2.2.1 [255] Encoding.utf8 rfl, ?_⟩
  have h := string_decode_fallback_policy.2.2.2 (.int 777) Encoding.utf8 rfl
  rw [h]
  simp only [pyStr, pyRepr]
  rfl

/-- C7: the integer coercion truncates floats toward zero (floor on
nonnegative, ceiling on nonpositive input), parses textual integers, raises
a ValueError on unparseable text and a TypeError on unsupported kinds; and
the spec's Scenario A holds: an `Integer(10)` field reads `10` on a fresh
instance, and after assigning `5.2` it reads `5`. -/
theorem integer_coercion_behavior :
    (∀ q : Rat, 0 ≤ q → Integer.func (.float q) = .ok (.int ⌊q⌋))
    ∧ (∀ q : Rat, q ≤ 0 → Integer.func (.float q) = .ok (.int ⌈q⌉))
    ∧ (∀ (s : String) (n : Int), parseInt s = some n → Integer.func (.str s) = .ok (.int n))
    ∧ (∀ s : String, parseInt s = Option.none → Integer.func (.str s) = .error .valueError)
    ∧ Integer.func .none = .error .typeError
    ∧ (∀ xs, Integer.func (.list xs) = .error .typeError)
    ∧ (∀ xs, Integer.func (.tuple xs) = .error .typeError)
    ∧ (∀ xs, Integer.func (.set xs) = .error .typeError)
    ∧ (∀ xs, Integer.func (.frozenset xs) = .error .typeError)
    ∧ (∀ kvs, Integer.func (.dict kvs) = .error .typeError)
    ∧ Integer.make (some (.int 10)) = .ok { func := Integer.func, default := some (.int 10) }
    ∧ FieldDescriptor.getScalar { func := Integer.func, default := some (.int 10) } Option.none
        = .ok (.int 10)
    ∧ FieldDescriptor.setValue Integer.func Option.none (.float 5.2)
        = (some (.int 5), Option.none)
    ∧ FieldDescriptor.getScalar { func := Integer.func, default := some (.int 10) }
        (some (.int 5)) = .ok (.int 5) := by
  refine ⟨?_, ?_, ?_, ?_, rfl, fun _ => rfl, fun _ => rfl, fun _ => rfl, fun _ => rfl,
    fun _ => rfl, rfl, rfl, ?_, rfl⟩
  · intro q h
    rw [show Integer.func (.float q) = .ok (.int (ratTrunc q)) from rfl, ratTrunc_eq_floor h]
  · intro q h
    rw [show Integer.func (.float q) = .ok (.int (ratTrunc q)) from rfl, ratTrunc_eq_ceil h]
  · intro s n h
    simp [Integer.func, h]
  · intro s h
    simp [Integer.func, h]
  · have h5 : Integer.func (.float 5.2) = .ok (.int 5) := by
      rw [show Integer.func (.float 5.2) = .ok (.int (ratTrunc 5.2)) from rfl]
      have hnum : (5.2 : Rat).num = 26 := by norm_num
      have hden : (5.2 : Rat).den = 5 := by norm_num
      rw [ratTrunc, hnum, hden]
      rfl
    rw [FieldDescriptor.setValue, h5]

/-- Witness for `integer_coercion_behavior`: truncation of `5.2` and `-5.2`,
parsing of `"321"`, rejection of `"5.2"`. -/
theorem integer_coercion_behavior_witness :
    Integer.func (.float 5.2) = .ok (.int 5)
    ∧ Integer.func (.float (-5.2)) = .ok (.int (-5))
    ∧ Integer.func (.str "321") = .ok (.int 321)
    ∧ Integer.func (.str "5.2") = .error .valueError := by
  refine ⟨?_, ?_, ?_, ?_⟩
  · have h := integer_coercion_behavior.1 5.2 (by norm_num)
    rw [h]
    norm_num
  · have h := integer_coercion_behavior.2.1 (-5.2) (by norm_num)
    rw [h]
    have hceil : (⌈(-5.2 : Rat)⌉ : Int) = -5 := by
      rw [show ((-5.2 : Rat)) = -(5.2 : Rat) from by norm_num, Int.ceil_neg]
      norm_num
    rw [hceil]
  · exact integer_coercion_behavior.2.2.1 "321" 321 rfl
  · exact integer_coercion_behavior.2.2.2.1 "5.2" rfl

/-- C9: every built-in coercion is stable under repetition — whenever
`coerce(x)` succeeds with `y`, `coerce(y)` succeeds and returns `y` itself. -/
theorem builtin_coercions_idempotent :
    ∀ (c : BuiltinCoercion) (x y : PyVal), c.apply x = .ok y → c.apply y = .ok y := by
  intro c x y h
  cases c with
  | integer => obtain ⟨n, rfl⟩ := integer_func_shape h; rfl
  | floating => obtain ⟨q, rfl⟩ := float_func_shape h; rfl
  | boolean => obtain ⟨b, rfl⟩ := boolean_func_shape h; rfl
  | byteSeq => obtain ⟨bs, rfl⟩ := bytes_func_shape h; rfl
  | text enc => obtain ⟨s, rfl⟩ := string_func_shape h; rfl
  | sequence => obtain ⟨xs, rfl⟩ := list_func_shape h; rfl
  | orderedSeq => obtain ⟨xs, rfl⟩ := tuple_func_shape h; rfl
  | uniqueSet =>
    obtain ⟨zs, rfl, hall⟩ := set_func_shape h
    have h1 := hashableElems_of_all (l := pyDedup zs) fun y hy => hall y (mem_pyDedup _ _ hy)
    show Set.func (.set (pyDedup zs)) = .ok (.set (pyDedup zs))
    simp [Set.func, pyIter, h1, pyDedup_idem]
  | frozenUniqueSet =>
    obtain ⟨zs, rfl, hall⟩ := Frozenset_func_shape h
    have h1 := hashableElems_of_all (l := pyDedup zs) fun y hy => hall y (mem_pyDedup _ _ hy)
    show FrozenSet.func (.frozenset (pyDedup zs)) = .ok (.frozenset (pyDedup zs))
    simp [FrozenSet.func, pyIter, h1, pyDedup_idem]
  | mapping => obtain ⟨kvs, rfl⟩ := dict_func_shape h; rfl

/-- Witness for `builtin_coercions_idempotent`: the integer coercion at
the text `"12"` and re-applied to its own output `12`. -/
theorem builtin_coercions_idempotent_witness :
    BuiltinCoercion.apply .integer (.str "12") = .ok (.int 12)
    ∧ BuiltinCoercion.apply .integer (.int 12) = .ok (.int 12) :=
  ⟨rfl, builtin_coercions_idempotent .integer (.str "12") (.int 12) rfl⟩

/-- C1 counterexample: an ordered-sequence (`Tuple`) field whose raw default
is the tuple object at address 0.  An unset read leaves the heap unchanged
and returns address 0 itself — `tuple(t)` of an exact tuple is `t` — so a
second read (the same call on the unchanged heap) returns the same address:
the two reads yield the *identical* object, not equal-but-non-identical
ones.  The same holds for `FrozenSet`.  The claim is false for these two
kinds. -/
theorem tuple_unset_read_same_object_cex :
    Heap.get ⟨[Obj.tupleO [PyVal.int 1]]⟩ 0 = some (Obj.tupleO [PyVal.int 1])
    ∧ unsetRead ContainerKind.tuple ⟨[Obj.tupleO [PyVal.int 1]]⟩ 0
        = some (⟨[Obj.tupleO [PyVal.int 1]]⟩, 0) :=
  ⟨rfl, rfl⟩

/-- C1 as amended: for the mutable container kinds (sequence, set, mapping)
an unset read materializes a fresh object — at the first free address, hence
distinct from the raw default and from every previously returned object — so
two unset reads yield equal contents at distinct addresses, and mutating any
address other than the raw default's (in particular any returned object)
changes neither the stored class-level default nor the contents later unset
reads produce; for the immutable kinds (ordered-sequence tuple, unique-set
frozenset) every unset read returns the very same immutable default object. -/
theorem container_unset_reads_fresh_policy :
    (∀ (k : ContainerKind) (h : Heap) (d0 : Nat) (o : Obj),
        kindMutable k = true → Heap.get h d0 = some o → kindMatches k o = true →
          unsetRead k h d0 = some (Heap.push h (coerceObj k o), h.cells.length)
          ∧ d0 ≠ h.cells.length
          ∧ Heap.get (Heap.push h (coerceObj k o)) h.cells.length = some (coerceObj k o)
          ∧ Heap.get (Heap.push h (coerceObj k o)) d0 = some o)
    ∧ (∀ (h : Heap) (a : Nat) (o' : Obj) (d0 : Nat), a ≠ d0 →
        Heap.get (Heap.mutate h a o') d0 = Heap.get h d0)
    ∧ (∀ (k : ContainerKind) (h h' : Heap) (d0 : Nat), Heap.get h d0 = Heap.get h' d0 →
        ((unsetRead k h d0).map fun p => Heap.get p.1 p.2)
          = ((unsetRead k h' d0).map fun p => Heap.get p.1 p.2))
    ∧ (∀ (k : ContainerKind) (h : Heap) (d0 : Nat) (o : Obj),
        kindMutable k = false → Heap.get h d0 = some o → kindMatches k o = true →
          unsetRead k h d0 = some (h, d0)) := by
  refine ⟨?_, ?_, ?_, ?_⟩
  · intro k h d0 o hmut hget hmatch
    have hlt : d0 < h.cells.length := by
      by_contra hn
      rw [Heap.get, List.getElem?_eq_none (Nat.le_of_not_lt hn)] at hget
      cases hget
    refine ⟨?_, ?_, ?_, ?_⟩
    · rw [unsetRead, hget]
      simp [hmatch, hmut]
    · exact Nat.ne_of_lt hlt
    · rw [Heap.push, Heap.get]
      exact List.getElem?_concat_length _ _
    · rw [Heap.push, Heap.get]
      rw [List.getElem?_append, if_pos hlt]
      exact hget
  · intro h a o' d0 hne
    rw [Heap.mutate, Heap.get, Heap.get]
    exact List.getElem?_set_ne hne
  · intro k h h' d0 hEq
    rw [unsetRead, unsetRead, hEq]
    cases hget : Heap.get h' d0 with
    | none => rfl
    | some o =>
      by_cases hm : kindMatches k o = true
      · by_cases hmu : kindMutable k = true
        · simp [hm, hmu, Heap.push, Heap.get, List.getElem?_concat_length]
        · simp [hm, hmu, hEq]
      · simp [hm]
  · intro k h d0 o hmut hget hmatch
    rw [unsetRead, hget]
    simp [hmatch, hmut]

/-- Witness for `container_unset_reads_fresh_policy` at a sequence (`List`)
field whose raw default `[665]` sits at address 0 of a one-cell heap: the
read allocates a copy at address 1, and mutating address 1 leaves address 0
unchanged. -/
theorem container_unset_reads_fresh_policy_witness :
    unsetRead ContainerKind.list ⟨[Obj.listO [PyVal.int 665]]⟩ 0
      = some (⟨[Obj.listO [PyVal.int 665], Obj.listO [PyVal.int 665]]⟩, 1)
    ∧ (0 : Nat) ≠ 1
    ∧ Heap.get (Heap.mutate ⟨[Obj.listO [PyVal.int 665], Obj.listO [PyVal.int 665]]⟩ 1
        (Obj.listO [])) 0 = some (Obj.listO [PyVal.int 665]) := by
  have h1 := container_unset_reads_fresh_policy.1 ContainerKind.list
    ⟨[Obj.listO [PyVal.int 665]]⟩ 0 (Obj.listO [PyVal.int 665]) rfl rfl rfl
  have h2 := container_unset_reads_fresh_policy.2.1
    ⟨[Obj.listO [PyVal.int 665], Obj.listO [PyVal.int 665]]⟩ 1 (Obj.listO []) 0
    (by decide)
  exact ⟨h1.1, h1.2.1, by rw [h2]; rfl⟩

/-- C8 counterexample: the list `[[]]` is iterable, yet the unique-set
coercion does not construct a set from it — its element is a list, which is
unhashable, so `set([[]])` raises a TypeError.  The claim's "constructs its
target container from any iterable input" is false for the set kinds. -/
theorem set_unhashable_element_cex :
    pyIter (.list [PyVal.list []]) = some [PyVal.list []]
    ∧ Set.func (.list [PyVal.list []]) = .error .typeError :=
  ⟨rfl, rfl⟩

/-- C8 as amended: the sequence and ordered-sequence coercions construct
their container from any iterable; the set coercions additionally require
every element to be hashable, and the mapping coercion a pair-iterable with
hashable keys; a textual string input is decomposed into its individual
characters — in particular, a unique-set field given the text `"919293"`
yields the set of its distinct characters.  Scenario C's default
`[665, 666, 667]` is also evaluated. -/
theorem container_coercions_from_iterables :
    (∀ (v : PyVal) (xs : List PyVal), pyIter v = some xs →
        List.func v = .ok (.list xs) ∧ Tuple.func v = .ok (.tuple xs))
    ∧ (∀ (v : PyVal) (xs : List PyVal), pyIter v = some xs → (∀ e ∈ xs, e.hashable = true) →
        Set.func v = .ok (.set (pyDedup xs))
        ∧ FrozenSet.func v = .ok (.frozenset (pyDedup xs)))
    ∧ (∀ kvs, Dict.func (.dict kvs) = .ok (.dict kvs))
    ∧ (∀ (xs : List PyVal) (kvs : List (PyVal × PyVal)), pairsOfElems xs = .ok kvs →
        Dict.func (.list xs) = .ok (.dict (kvs.foldl insertPair [])))
    ∧ (∀ s : String, pyIter (.str s) = some (s.data.map fun c => .str (String.singleton c)))
    ∧ Set.func (.str "919293") = .ok (.set [.str "9", .str "1", .str "2", .str "3"])
    ∧ Set.func (.list [.int 665, .int 666, .int 667])
        = .ok (.set [.int 665, .int 666, .int 667]) := by
  refine ⟨?_, ?_, fun _ => rfl, ?_, fun _ => rfl, ?_, ?_⟩
  · intro v xs hIter
    constructor
    · rw [List.func, hIter]
    · rw [Tuple.func, hIter]
  · intro v xs hIter hall
    constructor
    · rw [Set.func, hIter]
      simp [hashableElems_of_all hall]
    · rw [FrozenSet.func, hIter]
      simp [hashableElems_of_all hall]
  · intro xs kvs hPairs
    rw [Dict.func]
    · simp only [pyIter]
      rw [hPairs]
    · intro kvs0 hbad
      cases hbad
  · show Set.func (.str "919293") = _
    have e9 : String.singleton '9' = "9" := rfl
    have e1 : String.singleton '1' = "1" := rfl
    have e2 : String.singleton '2' = "2" := rfl
    have e3 : String.singleton '3' = "3" := rfl
    simp [Set.func, pyIter, hashableElems, PyVal.hashable, pyDedup, PyVal.beq,
      e9, e1, e2, e3]
  · show Set.func (.list [.int 665, .int 666, .int 667]) = _
    simp [Set.func, pyIter, hashableElems, PyVal.hashable, pyDedup, PyVal.beq]

/-- Witness for `container_coercions_from_iterables`: the text `"999"` as a
sequence input, Scenario C's set default, and a pair-list as mapping input. -/
theorem container_coercions_from_iterables_witness :
    List.func (.str "999") = .ok (.list [.str "9", .str "9", .str "9"])
    ∧ Set.func (.list [.int 665, .int 666, .int 667])
        = .ok (.set [.int 665, .int 666, .int 667])
    ∧ Dict.func (.list [.tuple [.str "a", .int 1]]) = .ok (.dict [(.str "a", .int 1)]) := by
  refine ⟨?_, ?_, ?_⟩
  · exact (container_coercions_from_iterables.1 (.str "999")
      [.str "9", .str "9", .str "9"] rfl).1
  · have h := (container_coercions_from_iterables.2.1 (.list [.int 665, .int 666, .int 667])
      [.int 665, .int 666, .int 667] rfl (by intro e he; fin_cases he <;> rfl)).1
    rw [h]
    simp [pyDedup, PyVal.beq]
  · exact container_coercions_from_iterables.2.2.2.1 [.tuple [.str "a", .int 1]]
      [(.str "a", .int 1)] rfl
